import Mathlib

/-
Verification of the Registry-Manager core (reg_parser.py, status_checker.py,
reg_creator.py) against its natural-language specification.

The Python code is shallowly embedded: dictionaries become structures with
Option-valued fields (Python dict.get returning None is Option.none), Python
ints become Int, byte lists become List Int, and the line loop of
parse_content becomes a fold over the split lines.  All definitions are
executable and decidable so that concrete runs can be settled by decide.
-/

namespace RegistryManager

/- ## Python string primitives -/

/-- Model of Python str.strip: drop leading and trailing whitespace. -/
def stripChars (l : List Char) : List Char :=
  ((l.dropWhile Char.isWhitespace).reverse.dropWhile Char.isWhitespace).reverse

/-- Model of Python str.strip on strings. -/
def pyStrip (s : String) : String := ⟨stripChars s.data⟩

/-- Prefix test on character lists (recursing on the prefix first). -/
def listPrefixOf : List Char → List Char → Bool
  | [], _ => true
  | _ :: _, [] => false
  | c :: cs, d :: ds => c == d && listPrefixOf cs ds

/-- Model of Python str.startswith. -/
def pyStartsWith (s p : String) : Bool := listPrefixOf p.data s.data

/-- Model of Python str.endswith. -/
def pyEndsWith (s p : String) : Bool := p.data.isSuffixOf s.data

/-- Model of Python slicing s[n:]. -/
def sliceDrop (s : String) (n : Nat) : String := ⟨s.data.drop n⟩

/-- Model of Python str.split(sep) for a single character separator
(keeps empty pieces, as Python does). -/
def splitCharAux (c : Char) : List Char → List (List Char)
  | [] => [[]]
  | x :: xs =>
    match splitCharAux c xs with
    | [] => [[]]
    | h :: t => if x = c then [] :: h :: t else (x :: h) :: t

/-- Model of Python str.split for one separator character. -/
def pySplitChar (c : Char) (s : String) : List String :=
  (splitCharAux c s.data).map (fun l => ⟨l⟩)

/-- Fueled worker for pyReplace. -/
def replaceAux (old new : List Char) : Nat → List Char → List Char
  | 0, l => l
  | _ + 1, [] => []
  | fuel + 1, x :: xs =>
    if old.isPrefixOf (x :: xs) then
      new ++ replaceAux old new fuel ((x :: xs).drop old.length)
    else
      x :: replaceAux old new fuel xs

/-- Model of Python str.replace (left-to-right, non-overlapping). -/
def pyReplace (s old new : String) : String :=
  ⟨replaceAux old.data new.data s.data.length s.data⟩

/-- Model of Python str.splitlines for the line endings LF, CRLF and CR
(a trailing line break produces no trailing empty line). -/
def splitlinesAux : List Char → List Char → List (List Char)
  | '\r' :: '\n' :: rest, cur => cur.reverse :: splitlinesAux rest []
  | '\r' :: rest, cur => cur.reverse :: splitlinesAux rest []
  | '\n' :: rest, cur => cur.reverse :: splitlinesAux rest []
  | c :: rest, cur => splitlinesAux rest (c :: cur)
  | [], cur => if cur = [] then [] else [cur.reverse]

/-- Model of Python str.splitlines. -/
def pySplitlines (s : String) : List String :=
  (splitlinesAux s.data []).map (fun l => ⟨l⟩)

/-- Model of Python str.lower for ASCII content. -/
def pyLower (s : String) : String := ⟨s.data.map Char.toLower⟩

/- ## Python int(s, base) -/

/-- Value of one hexadecimal digit. -/
def hexDigitVal (c : Char) : Option Nat :=
  if '0' ≤ c ∧ c ≤ '9' then some (c.toNat - '0'.toNat)
  else if 'a' ≤ c ∧ c ≤ 'f' then some (c.toNat - 'a'.toNat + 10)
  else if 'A' ≤ c ∧ c ≤ 'F' then some (c.toNat - 'A'.toNat + 10)
  else none

/-- Value of one decimal digit. -/
def decDigitVal (c : Char) : Option Nat :=
  if '0' ≤ c ∧ c ≤ '9' then some (c.toNat - '0'.toNat) else none

/-- Left-to-right digit accumulation in the given base. -/
def digitsValFold (base : Nat) (dv : Char → Option Nat) (l : List Char) : Option Nat :=
  l.foldl (fun acc c =>
    match acc, dv c with
    | some a, some d => some (a * base + d)
    | _, _ => none) (some 0)

/-- Python allows single underscores between digits of an int literal. -/
def noDoubleUnderscore : List Char → Bool
  | '_' :: '_' :: _ => false
  | _ :: rest => noDoubleUnderscore rest
  | [] => true

/-- Digit-group shape accepted by Python int: nonempty, no leading or
trailing underscore, no doubled underscore. -/
def underscoreShapeOk (l : List Char) : Bool :=
  !l.isEmpty && l.head? ≠ some '_' && l.getLast? ≠ some '_' && noDoubleUnderscore l

/-- Core of Python int(s, base): digits after sign and prefix stripping. -/
def pyIntDigits (base : Nat) (dv : Char → Option Nat) (l : List Char) : Option Nat :=
  if underscoreShapeOk l then digitsValFold base dv (l.filter (fun c => c ≠ '_'))
  else none

/-- Model of Python int(s, 16): optional whitespace, sign and 0x prefix,
hexadecimal digits possibly separated by single underscores. -/
def pyIntHex (s : String) : Option Int :=
  let t0 := stripChars s.data
  let (neg, t1) :=
    match t0 with
    | '-' :: r => (true, r)
    | '+' :: r => (false, r)
    | r => (false, r)
  let t2 :=
    match t1 with
    | '0' :: c :: r =>
      if c = 'x' ∨ c = 'X' then
        match r with
        | '_' :: r2 => r2
        | r2 => r2
      else t1
    | _ => t1
  match pyIntDigits 16 hexDigitVal t2 with
  | some n => some (if neg then -(n : Int) else (n : Int))
  | none => none

/-- Model of Python int(s) in base 10 (no prefix). -/
def pyIntDec (s : String) : Option Int :=
  let t0 := stripChars s.data
  let (neg, t1) :=
    match t0 with
    | '-' :: r => (true, r)
    | '+' :: r => (false, r)
    | r => (false, r)
  match pyIntDigits 10 decDigitVal t1 with
  | some n => some (if neg then -(n : Int) else (n : Int))
  | none => none

/- ## Data model: parsed registry values, keys and documents -/

/-- Payload of a registry value as the Python code stores it: a string,
an int, a list of byte ints, or a list of strings (live REG_MULTI_SZ). -/
inductive RegData where
  | str (s : String)
  | num (n : Int)
  | bytes (l : List Int)
  | strs (l : List String)
deriving DecidableEq, Repr

/-- A parsed registry value: the Python dict with keys type/data/error/action.
A Python value of None (or an absent dict key) is Option.none. -/
structure RegValue where
  type : Option String
  data : Option RegData
  error : Option String
  action : Option String
deriving DecidableEq, Repr

/-- Value dict with type and data only. -/
def mkValue (t : String) (d : RegData) : RegValue :=
  ⟨some t, some d, Option.none, Option.none⟩

/-- Value dict with type, data and error. -/
def mkValueErr (t : String) (d : Option RegData) (e : String) : RegValue :=
  ⟨some t, d, some e, Option.none⟩

/-- The dict the parser stores for a source marker name=- (type DELETE,
data None, no action field). -/
def deleteValue : RegValue := ⟨some "DELETE", Option.none, Option.none, Option.none⟩

/-- One parsed key: named values (insertion ordered dict) and the optional
default value. -/
structure RegKey where
  values : List (String × RegValue)
  default_value : Option RegValue
deriving DecidableEq, Repr

/-- Fresh key entry. -/
def emptyRegKey : RegKey := ⟨[], Option.none⟩

/-- Result dict of parse_content. -/
structure ParsedDoc where
  version : Option String
  keys : List (String × RegKey)
  deleted_keys : List String
  errors : List String
deriving DecidableEq, Repr

/- ## Ordered association lists modelling Python dicts -/

/-- Dict lookup. -/
def alistLookup {α : Type} (k : String) : List (String × α) → Option α
  | [] => Option.none
  | p :: rest => if p.1 = k then some p.2 else alistLookup k rest

/-- Dict assignment: overwrite in place, else append at the end. -/
def alistInsert {α : Type} (k : String) (v : α) : List (String × α) → List (String × α)
  | [] => [(k, v)]
  | p :: rest => if p.1 = k then (k, v) :: rest else p :: alistInsert k v rest

/-- Update the entry for an existing dict key. -/
def alistModify (k : String) (f : RegKey → RegKey) : List (String × RegKey) → List (String × RegKey)
  | [] => []
  | p :: rest => if p.1 = k then (p.1, f p.2) :: rest else p :: alistModify k f rest

/- ## RegFileParser regex patterns -/

/-- key_pattern r-bracket([^bracket]+)bracket: the whole line is [INNER]
with a nonempty INNER free of closing brackets. -/
def matchKeyLine (l : String) : Option String :=
  if pyStartsWith l "[" ∧ pyEndsWith l "]" then
    let inner := (l.data.drop 1).dropLast
    if inner ≠ [] ∧ ¬ inner.contains ']' then some ⟨inner⟩ else Option.none
  else Option.none

/-- delete_key_pattern: the whole line is [-INNER]. -/
def matchDeleteKeyLine (l : String) : Option String :=
  if pyStartsWith l "[-" ∧ pyEndsWith l "]" then
    let inner := (l.data.drop 2).dropLast
    if inner ≠ [] ∧ ¬ inner.contains ']' then some ⟨inner⟩ else Option.none
  else Option.none

/-- default_value_pattern at-sign=(.+): default value line. -/
def matchDefaultLine (l : String) : Option String :=
  if pyStartsWith l "@=" ∧ l.data.drop 2 ≠ [] then some ⟨l.data.drop 2⟩ else Option.none

/-- value_pattern quote([^quote]*)quote=(.+): named value line. -/
def matchValueLine (l : String) : Option (String × String) :=
  match l.data with
  | '"' :: rest =>
    let name := rest.takeWhile (fun c => c ≠ '"')
    match rest.dropWhile (fun c => c ≠ '"') with
    | '"' :: '=' :: v => if v ≠ [] then some (⟨name⟩, ⟨v⟩) else Option.none
    | _ => Option.none
  | _ => Option.none

/-- Python repr of a short string, as it appears in ValueError text. -/
def pyReprStr (s : String) : String := "'" ++ s ++ "'"

/-- _get_reg_type_from_code: explicit hex(N) type codes. -/
def regTypeFromCode (code : String) : String :=
  let c := pyLower code
  if c = "0" then "REG_NONE"
  else if c = "1" then "REG_SZ"
  else if c = "2" then "REG_EXPAND_SZ"
  else if c = "3" then "REG_BINARY"
  else if c = "4" then "REG_DWORD"
  else if c = "5" then "REG_DWORD_BIG_ENDIAN"
  else if c = "6" then "REG_LINK"
  else if c = "7" then "REG_MULTI_SZ"
  else if c = "8" then "REG_RESOURCE_LIST"
  else if c = "9" then "REG_FULL_RESOURCE_DESCRIPTOR"
  else if c = "a" then "REG_RESOURCE_REQUIREMENTS_LIST"
  else if c = "b" then "REG_QWORD"
  else "REG_BINARY"

/-- The anchored regex hex-paren([^paren]+)paren-colon used for hex(N): values;
returns the type code and the remaining data text. -/
def matchHexParen (s : String) : Option (String × String) :=
  match s.data with
  | 'h' :: 'e' :: 'x' :: '(' :: rest =>
    let code := rest.takeWhile (fun c => c ≠ ')')
    match rest.dropWhile (fun c => c ≠ ')') with
    | ')' :: ':' :: r => if code ≠ [] then some (⟨code⟩, ⟨r⟩) else Option.none
    | _ => Option.none
  | _ => Option.none

/-- Hex byte loop of _parse_value: split on commas, strip each piece, skip
empty pieces and lone backslashes, otherwise int(piece, 16); the first
failing piece raises ValueError. -/
def parseHexBytes : List String → Except String (List Int)
  | [] => Except.ok []
  | piece :: rest =>
    let p := pyStrip piece
    if p = "" ∨ p = "\\" then parseHexBytes rest
    else
      match pyIntHex p with
      | some n =>
        match parseHexBytes rest with
        | Except.ok l => Except.ok (n :: l)
        | Except.error e => Except.error e
      | Option.none =>
        Except.error ("invalid literal for int() with base 16: " ++ pyReprStr p)

/-- _parse_value: classify and decode one right-hand-side value string. -/
def parseRegValue (valueStr : String) : RegValue :=
  let s := pyStrip valueStr
  if pyStartsWith s "\"" && pyEndsWith s "\"" then
    mkValue "REG_SZ" (RegData.str (pyReplace ⟨(s.data.drop 1).dropLast⟩ "\\\"" "\""))
  else if pyStartsWith s "dword:" then
    match pyIntHex (sliceDrop s 6) with
    | some n => mkValue "REG_DWORD" (RegData.num n)
    | Option.none => mkValueErr "REG_DWORD" (some (RegData.num 0)) ("Ungültiger DWORD-Wert: " ++ s)
  else if pyStartsWith s "qword:" then
    match pyIntHex (sliceDrop s 6) with
    | some n => mkValue "REG_QWORD" (RegData.num n)
    | Option.none => mkValueErr "REG_QWORD" (some (RegData.num 0)) ("Ungültiger QWORD-Wert: " ++ s)
  else if pyStartsWith s "hex" then
    let td : String × String :=
      if pyStartsWith s "hex:" then ("REG_BINARY", sliceDrop s 4)
      else if pyStartsWith s "hex(" then
        match matchHexParen s with
        | some cd => (regTypeFromCode cd.1, cd.2)
        | Option.none => ("REG_BINARY", s)
      else ("REG_BINARY", s)
    match parseHexBytes (pySplitChar ',' td.2) with
    | Except.ok l => mkValue td.1 (RegData.bytes l)
    | Except.error e => mkValueErr td.1 (some (RegData.bytes [])) ("Ungültige Hex-Daten: " ++ e)
  else
    mkValueErr "UNKNOWN" (some (RegData.str s)) ("Unbekannter Wert-Typ: " ++ s)

/- ## parse_content as a fold over lines -/

/-- Mutable loop state of parse_content: the result dict plus current_key. -/
structure PState where
  version : Option String
  keys : List (String × RegKey)
  deleted_keys : List String
  errors : List String
  current_key : Option String
deriving DecidableEq, Repr

/-- Initial loop state. -/
def initPState : PState := ⟨Option.none, [], [], [], Option.none⟩

/-- Text of an Unbekanntes-Format parse error. -/
def errLine (n : Nat) (line : String) : String :=
  "Zeile " ++ toString n ++ ": Unbekanntes Format: " ++ line

/-- One iteration of the parse_content line loop, in the exact order of the
source: blank/comment, version header, key_pattern, delete_key_pattern,
then default/named value inside the current key, else an error entry.
Note key_pattern is tried before delete_key_pattern and also matches
[-PATH] lines, exactly as in the source. -/
def lineStep (st : PState) (n : Nat) (raw : String) : PState :=
  let line := pyStrip raw
  if line == "" || pyStartsWith line ";" then st
  else if pyStartsWith line "Windows Registry Editor" then { st with version := some line }
  else
    match matchKeyLine line with
    | some k =>
      { st with
        current_key := some k,
        keys := if (alistLookup k st.keys).isNone then st.keys ++ [(k, emptyRegKey)] else st.keys }
    | Option.none =>
      match matchDeleteKeyLine line with
      | some dk => { st with deleted_keys := st.deleted_keys ++ [dk] }
      | Option.none =>
        match st.current_key with
        | some ck =>
          (match matchDefaultLine line with
           | some vtext =>
             let f := fun kd => { kd with default_value := some (parseRegValue vtext) }
             { st with keys := alistModify ck f st.keys }
           | Option.none =>
             match matchValueLine line with
             | some nv =>
               let v := if nv.2 == "-" then deleteValue else parseRegValue nv.2
               let f := fun kd => { kd with values := alistInsert nv.1 v kd.values }
               { st with keys := alistModify ck f st.keys }
             | Option.none => { st with errors := st.errors ++ [errLine n line] })
        | Option.none => { st with errors := st.errors ++ [errLine n line] }

/-- Run the line loop from a state and a line number. -/
def runLines (st : PState) (n : Nat) : List String → PState
  | [] => st
  | l :: rest => runLines (lineStep st n l) (n + 1) rest

/-- parse_content on an already split line list. -/
def parseLines (ls : List String) : ParsedDoc :=
  let st := runLines initPState 1 ls
  ⟨st.version, st.keys, st.deleted_keys, st.errors⟩

/-- parse_content: split the text into lines and run the loop. -/
def parseContent (content : String) : ParsedDoc :=
  parseLines (pySplitlines content)

/-- Value of a named entry of a key of a parsed document. -/
def docValue (d : ParsedDoc) (k n : String) : Option RegValue :=
  (alistLookup k d.keys).bind (fun kd => alistLookup n kd.values)

/-- The fall-through condition of the parse_content line loop: the
stripped line is not blank or a comment, not a version header, not a key
or delete-key line, and, when a key context is open, not a default or
named value line either.  Such a line is recorded as an unknown-format
parse error. -/
def isMalformed (currentKey : Option String) (raw : String) : Prop :=
  (pyStrip raw == "" || pyStartsWith (pyStrip raw) ";") = false ∧
  pyStartsWith (pyStrip raw) "Windows Registry Editor" = false ∧
  matchKeyLine (pyStrip raw) = Option.none ∧
  matchDeleteKeyLine (pyStrip raw) = Option.none ∧
  (currentKey.isSome = true →
    matchDefaultLine (pyStrip raw) = Option.none ∧
    matchValueLine (pyStrip raw) = Option.none)

instance (currentKey : Option String) (raw : String) :
    Decidable (isMalformed currentKey raw) := by
  unfold isMalformed
  infer_instance

/- ## RegistryStatusChecker -/

/-- The five root hive handles of the checker. -/
inductive RootKey where
  | hkcr | hkcu | hklm | hku | hkcc
deriving DecidableEq, Repr

/-- self.root_keys: mapping from root hive name to handle, in the
iteration order of the source dict. -/
def rootKeyNames : List (String × RootKey) :=
  [("HKEY_CLASSES_ROOT", RootKey.hkcr),
   ("HKEY_CURRENT_USER", RootKey.hkcu),
   ("HKEY_LOCAL_MACHINE", RootKey.hklm),
   ("HKEY_USERS", RootKey.hku),
   ("HKEY_CURRENT_CONFIG", RootKey.hkcc)]

/-- Model of Python str.lstrip for one character. -/
def lstripBackslash (s : String) : String := ⟨s.data.dropWhile (fun c => c = '\\')⟩

/-- _parse_key_path: first root hive name the path starts with, plus the
subkey with leading backslashes stripped; unknown root gives no handle. -/
def parseKeyPath (keyPath : String) : Option RootKey × String :=
  match rootKeyNames.find? (fun p => pyStartsWith keyPath p.1) with
  | some p => (some p.2, lstripBackslash (sliceDrop keyPath p.1.data.length))
  | Option.none => (Option.none, keyPath)

/-- self.reg_types: winreg integer type codes to type names, with the
UNKNOWN(n) fallback of dict.get. -/
def regTypeName (t : Int) : String :=
  if t = 1 then "REG_SZ"
  else if t = 2 then "REG_EXPAND_SZ"
  else if t = 3 then "REG_BINARY"
  else if t = 4 then "REG_DWORD"
  else if t = 5 then "REG_DWORD_BIG_ENDIAN"
  else if t = 6 then "REG_LINK"
  else if t = 7 then "REG_MULTI_SZ"
  else if t = 8 then "REG_RESOURCE_LIST"
  else if t = 9 then "REG_FULL_RESOURCE_DESCRIPTOR"
  else if t = 10 then "REG_RESOURCE_REQUIREMENTS_LIST"
  else if t = 11 then "REG_QWORD"
  else "UNKNOWN(" ++ toString t ++ ")"

/-- Outcome of winreg.OpenKey: success, FileNotFoundError, or some other
OS exception with its message. -/
inductive OpenResult where
  | found
  | notFound
  | oserror (msg : String)
deriving DecidableEq, Repr

/-- Outcome of winreg.QueryValueEx for a named value. -/
inductive ValueReadResult where
  | ok (data : RegData) (regType : Int)
  | notFound
  | oserror (msg : String)
deriving DecidableEq, Repr

/-- Outcome of winreg.QueryValue for the default value (always a string
paired with winreg.REG_SZ by the source). -/
inductive DefaultReadResult where
  | ok (s : String)
  | notFound
  | oserror (msg : String)
deriving DecidableEq, Repr

/-- The live-registry read capability consumed by the checker. -/
structure LiveReg where
  openKey : RootKey → String → OpenResult
  readValueEx : RootKey → String → String → ValueReadResult
  readDefault : RootKey → String → DefaultReadResult

/-- Python str() of the data slot, as used by _compare_values. -/
def pyStrData : Option RegData → String
  | Option.none => "None"
  | some (RegData.str s) => s
  | some (RegData.num n) => toString n
  | some (RegData.bytes l) => "[" ++ String.intercalate ", " (l.map toString) ++ "]"
  | some (RegData.strs l) => "[" ++ String.intercalate ", " (l.map pyReprStr) ++ "]"

/-- Python int() of the data slot; none models a raised exception. -/
def pyIntData : Option RegData → Option Int
  | some (RegData.num n) => some n
  | some (RegData.str s) => pyIntDec s
  | _ => Option.none

/-- Python == on two data slots (int lists and byte strings are
identified, as the REG_BINARY branch of the source converts between
them; empty lists compare equal whatever their element type). -/
def pyEqData : RegData → RegData → Bool
  | RegData.num a, RegData.num b => a == b
  | RegData.str a, RegData.str b => a == b
  | RegData.bytes a, RegData.bytes b => a == b
  | RegData.strs a, RegData.strs b => a == b
  | RegData.bytes a, RegData.strs b => a.isEmpty && b.isEmpty
  | RegData.strs a, RegData.bytes b => a.isEmpty && b.isEmpty
  | _, _ => false

/-- Python == on optional data slots (None == None is True). -/
def pyEqOptData : Option RegData → Option RegData → Bool
  | Option.none, Option.none => true
  | some a, some b => pyEqData a b
  | _, _ => false

/-- Python isinstance(x, list) for a data slot. -/
def isPyList : Option RegData → Bool
  | some (RegData.bytes _) => true
  | some (RegData.strs _) => true
  | _ => false

/-- _compare_values: type tags must agree, then payloads are compared per
tag family exactly as in the source (exceptions yield False). -/
def compareValues (expected actual : RegValue) : Bool :=
  if expected.type ≠ actual.type then false
  else
    let ed := expected.data
    let ad := actual.data
    let vt := expected.type
    if vt = some "REG_SZ" ∨ vt = some "REG_EXPAND_SZ" then
      pyStrData ed == pyStrData ad
    else if vt = some "REG_DWORD" ∨ vt = some "REG_QWORD" then
      match pyIntData ed, pyIntData ad with
      | some x, some y => x == y
      | _, _ => false
    else if vt = some "REG_BINARY" then
      pyEqOptData ed ad
    else if vt = some "REG_MULTI_SZ" then
      if isPyList ed && isPyList ad then pyEqOptData ed ad
      else pyStrData ed == pyStrData ad
    else
      pyStrData ed == pyStrData ad

/-- Per-value verdict dict of _check_value_status. -/
structure ValueStatus where
  status : String
  expected : RegValue
  actual : Option RegValue
  error : Option String
deriving DecidableEq, Repr

/-- Shared tail of _check_value_status once the live read succeeded:
wrap the live value, detect the delete action, else compare. -/
def classifyRead (expected : RegValue) (d : RegData) (t : Int) : ValueStatus :=
  let actualV : RegValue := ⟨some (regTypeName t), some d, Option.none, Option.none⟩
  if expected.action = some "delete" then ⟨"should_not_exist", expected, some actualV, Option.none⟩
  else if compareValues expected actualV then ⟨"match", expected, some actualV, Option.none⟩
  else ⟨"different", expected, some actualV, Option.none⟩

/-- _check_value_status branch for a FileNotFoundError from the live read. -/
def classifyNotFound (expected : RegValue) : ValueStatus :=
  if expected.action = some "delete" then ⟨"correctly_deleted", expected, Option.none, Option.none⟩
  else ⟨"missing", expected, Option.none, Option.none⟩

/-- _check_value_status: read the live value (QueryValue for the default,
QueryValueEx for a named value) and classify. -/
def checkValueStatus (reg : LiveReg) (root : RootKey) (sub : String)
    (valueName : Option String) (expected : RegValue) : ValueStatus :=
  match valueName with
  | Option.none =>
    match reg.readDefault root sub with
    | DefaultReadResult.ok s => classifyRead expected (RegData.str s) 1
    | DefaultReadResult.notFound => classifyNotFound expected
    | DefaultReadResult.oserror m => ⟨"missing", expected, Option.none, some m⟩
  | some name =>
    match reg.readValueEx root sub name with
    | ValueReadResult.ok d t => classifyRead expected d t
    | ValueReadResult.notFound => classifyNotFound expected
    | ValueReadResult.oserror m => ⟨"missing", expected, Option.none, some m⟩

/-- Per-key status dict of _check_key_status. -/
structure KeyStatus where
  keyExists : Bool
  values : List (String × ValueStatus)
  errors : List String
deriving DecidableEq, Repr

/-- Values dict a missing key gets: every declared value (default under
the at-default name first, then named values) marked missing. -/
def missingValueEntries (keyData : RegKey) : List (String × ValueStatus) :=
  let vs0 : List (String × ValueStatus) :=
    match keyData.default_value with
    | some dv => alistInsert "@default" ⟨"missing", dv, Option.none, Option.none⟩ []
    | Option.none => []
  keyData.values.foldl
    (fun acc p => alistInsert p.1 ⟨"missing", p.2, Option.none, Option.none⟩ acc) vs0

/-- Values dict of an existing key: every declared value checked live. -/
def checkedValueEntries (reg : LiveReg) (root : RootKey) (sub : String)
    (keyData : RegKey) : List (String × ValueStatus) :=
  let vs0 : List (String × ValueStatus) :=
    match keyData.default_value with
    | some dv => alistInsert "@default" (checkValueStatus reg root sub Option.none dv) []
    | Option.none => []
  keyData.values.foldl
    (fun acc p => alistInsert p.1 (checkValueStatus reg root sub (some p.1) p.2) acc) vs0

/-- _check_key_status: resolve the path, open the key, check values;
an invalid path or an OS error yields exists=false with an error entry. -/
def checkKeyStatus (reg : LiveReg) (keyPath : String) (keyData : RegKey) : KeyStatus :=
  match parseKeyPath keyPath with
  | (Option.none, _) => ⟨false, [], ["Ungültiger Key-Pfad: " ++ keyPath]⟩
  | (some root, sub) =>
    match reg.openKey root sub with
    | OpenResult.found => ⟨true, checkedValueEntries reg root sub keyData, []⟩
    | OpenResult.notFound => ⟨false, missingValueEntries keyData, []⟩
    | OpenResult.oserror m => ⟨false, [], ["Fehler beim Prüfen des Keys: " ++ m]⟩

/-- _key_exists: resolve and open; every failure counts as not existing. -/
def keyExistsLive (reg : LiveReg) (keyPath : String) : Bool :=
  match parseKeyPath keyPath with
  | (Option.none, _) => false
  | (some root, sub) =>
    match reg.openKey root sub with
    | OpenResult.found => true
    | _ => false

/-- Summary dict of check_file_status. -/
structure Summary where
  total_keys : Nat
  active_keys : Nat
  missing_keys : Nat
  total_values : Nat
  matching_values : Nat
  different_values : Nat
  missing_values : Nat
deriving DecidableEq, Repr

/-- Zero summary. -/
def zeroSummary : Summary := ⟨0, 0, 0, 0, 0, 0, 0⟩

/-- Per-value summary bucketing of check_file_status: total always, and
exactly one of matching, different, or (for any other status) missing. -/
def bucketValue (s : Summary) (vs : ValueStatus) : Summary :=
  let s1 := { s with total_values := s.total_values + 1 }
  if vs.status = "match" then { s1 with matching_values := s1.matching_values + 1 }
  else if vs.status = "different" then { s1 with different_values := s1.different_values + 1 }
  else { s1 with missing_values := s1.missing_values + 1 }

/-- Per-key summary aggregation of check_file_status. -/
def addKeyToSummary (s : Summary) (ks : KeyStatus) : Summary :=
  let s1 := { s with total_keys := s.total_keys + 1 }
  let s2 :=
    if ks.keyExists then { s1 with active_keys := s1.active_keys + 1 }
    else { s1 with missing_keys := s1.missing_keys + 1 }
  ks.values.foldl (fun acc p => bucketValue acc p.2) s2

/-- Per-key entry of the report map (deleted-key entries carry
expected_deleted and a status string and have no value map). -/
structure KeyReport where
  keyExists : Bool
  expectedDeleted : Bool
  status : Option String
  values : List (String × ValueStatus)
  errors : List String
deriving DecidableEq, Repr

/-- Whole-file report of check_file_status. -/
structure StatusResult where
  summary : Summary
  keys : List (String × KeyReport)
  overall_status : String
deriving DecidableEq, Repr

/-- _calculate_overall_status, a function of the summary counters. -/
def calculateOverallStatus (s : Summary) : String :=
  if s.total_values = 0 then "unknown"
  else if s.matching_values = s.total_values then "all_active"
  else if s.matching_values = 0 then "all_inactive"
  else "partial"

/-- Loop body of the per-key pass of check_file_status. -/
def checkStep (reg : LiveReg) (acc : Summary × List (String × KeyReport))
    (p : String × RegKey) : Summary × List (String × KeyReport) :=
  let ks := checkKeyStatus reg p.1 p.2
  (addKeyToSummary acc.1 ks,
   alistInsert p.1 ⟨ks.keyExists, false, Option.none, ks.values, ks.errors⟩ acc.2)

/-- Loop body of the deleted-keys pass of check_file_status. -/
def deletedStep (reg : LiveReg) (acc : List (String × KeyReport)) (dk : String) :
    List (String × KeyReport) :=
  let ex := keyExistsLive reg dk
  alistInsert dk
    ⟨ex, true, some (if ex then "should_not_exist" else "correctly_deleted"), [], []⟩ acc

/-- check_file_status on an already parsed document: per-key pass with
summary aggregation, deleted-keys pass, then overall status. -/
def checkContentStatus (reg : LiveReg) (parsed : ParsedDoc) : StatusResult :=
  let acc := parsed.keys.foldl (checkStep reg) (zeroSummary, [])
  let reports := parsed.deleted_keys.foldl (deletedStep reg) acc.2
  ⟨acc.1, reports, calculateOverallStatus acc.1⟩

/- ## RegFileCreator -/

/-- Lowercase hexadecimal digits of a natural number (fueled division). -/
def natToHexAux : Nat → Nat → List Char
  | 0, _ => []
  | _ + 1, 0 => []
  | fuel + 1, n =>
    natToHexAux fuel (n / 16) ++
      [(if n % 16 < 10 then Char.ofNat ('0'.toNat + n % 16)
        else Char.ofNat ('a'.toNat + (n % 16 - 10)))]

/-- Lowercase hexadecimal rendering of a natural number. -/
def natToHex (n : Nat) : String :=
  if n = 0 then "0" else ⟨natToHexAux (n + 1) n⟩

/-- Python format spec 0Wx on an int: zero-padded lowercase hex of the
given total width, the sign included in the width for negatives. -/
def hexPadded (n : Int) (w : Nat) : String :=
  if n < 0 then
    let digits := natToHex (-n).toNat
    "-" ++ ⟨List.replicate (w - 1 - digits.data.length) '0' ++ digits.data⟩
  else
    let digits := natToHex n.toNat
    ⟨List.replicate (w - digits.data.length) '0' ++ digits.data⟩

/-- UTF-16LE byte expansion used by _format_value: per character the low
byte then the high byte of the code point. -/
def strToUtf16Bytes (s : String) : List Int :=
  s.data.foldr
    (fun c acc => Int.ofNat (c.toNat % 256) :: Int.ofNat (c.toNat / 256 % 256) :: acc) []

/-- Chunking with the given width (fueled). -/
def chunkAux {α : Type} (w : Nat) : Nat → List α → List (List α)
  | 0, _ => []
  | _ + 1, [] => []
  | fuel + 1, l => l.take w :: chunkAux w fuel (l.drop w)

/-- Multi-line layout of long hex values: chunks of 16 byte pairs, every
chunk except the last ending in a comma and a continuation backslash. -/
def binaryChunkLines (hexValues : List String) : List String :=
  let chunks := chunkAux 16 hexValues.length hexValues
  chunks.dropLast.map (fun c => String.intercalate "," c ++ ",\\") ++
    (match chunks.getLast? with
     | some c => [String.intercalate "," c]
     | Option.none => [])

/-- MULTI_SZ byte stream: each element UTF-16LE encoded and NUL-pair
terminated, with a final extra NUL pair. -/
def multiSzBytes (elems : List String) : List Int :=
  elems.foldl (fun acc s => acc ++ strToUtf16Bytes s ++ [0, 0]) [] ++ [0, 0]

/-- _format_value on the dict representation (the isinstance(str)/(int)
compatibility branches of the source take plain Python values, which the
dict-based document model never contains; the REG_BINARY branch with a
non-int list would raise in Python and is likewise outside this model). -/
def formatValue (v : RegValue) : String :=
  let vt := v.type.getD "REG_SZ"
  if vt = "REG_SZ" then
    match v.data with
    | Option.none => "\"\""
    | some d => "\"" ++ pyReplace (pyStrData (some d)) "\"" "\\\"" ++ "\""
  else if vt = "REG_DWORD" then
    match v.data with
    | some (RegData.num n) => "dword:" ++ hexPadded n 8
    | _ => "dword:00000000"
  else if vt = "REG_QWORD" then
    match v.data with
    | some (RegData.num n) => "qword:" ++ hexPadded n 16
    | _ => "qword:0000000000000000"
  else if vt = "REG_BINARY" then
    match v.data with
    | some (RegData.bytes l) =>
      let hexValues := l.map (fun b => hexPadded b 2)
      if hexValues.length ≤ 8 then "hex:" ++ String.intercalate "," hexValues
      else
        let ls := binaryChunkLines hexValues
        "hex:" ++ ls.headD "" ++ "\n  " ++ String.intercalate "\n  " ls.tail
    | _ => "hex:"
  else if vt = "REG_MULTI_SZ" then
    match v.data with
    | some (RegData.strs l) =>
      "hex(7):" ++ String.intercalate "," ((multiSzBytes l).map (fun b => hexPadded b 2))
    | some (RegData.bytes l) =>
      "hex(7):" ++ String.intercalate ","
        ((multiSzBytes (l.map toString)).map (fun b => hexPadded b 2))
    | _ => "hex(7):00,00"
  else if vt = "REG_EXPAND_SZ" then
    match v.data with
    | Option.none => "hex(2):" ++ String.intercalate "," (([(0 : Int), 0]).map (fun b => hexPadded b 2))
    | some d =>
      "hex(2):" ++ String.intercalate ","
        ((strToUtf16Bytes (pyStrData (some d)) ++ [0, 0]).map (fun b => hexPadded b 2))
  else
    "\"" ++ pyStrData v.data ++ "\""

/-- _generate_content for the title=None, description=None call (the
optional comment block embeds a wall-clock timestamp and is outside this
model): header, key sections, deleted-key sections, joined by newlines. -/
def generateContent (keys : List (String × RegKey)) (deletedKeys : List String) : String :=
  let header := ["Windows Registry Editor Version 5.00", ""]
  let keyLines := keys.foldl
    (fun acc p =>
      let acc1 := acc ++ ["[" ++ p.1 ++ "]"]
      let acc2 :=
        match p.2.default_value with
        | some dv => acc1 ++ ["@=" ++ formatValue dv]
        | Option.none => acc1
      let acc3 := p.2.values.foldl
        (fun a q =>
          if q.2.action = some "delete" then a ++ ["\"" ++ q.1 ++ "\"=-"]
          else a ++ ["\"" ++ q.1 ++ "\"=" ++ formatValue q.2]) acc2
      acc3 ++ [""]) []
  let delLines := deletedKeys.foldl (fun a dk => a ++ ["[-" ++ dk ++ "]", ""]) []
  String.intercalate "\n" (header ++ keyLines ++ delLines)

/- ## Concrete live registries and documents used to evaluate the code -/

/-- A live registry in which every key exists and no value read succeeds. -/
def regAllFound : LiveReg :=
  ⟨fun _ _ => OpenResult.found,
   fun _ _ _ => ValueReadResult.notFound,
   fun _ _ => DefaultReadResult.notFound⟩

/-- A live registry in which no key exists. -/
def regNoneFound : LiveReg :=
  ⟨fun _ _ => OpenResult.notFound,
   fun _ _ _ => ValueReadResult.notFound,
   fun _ _ => DefaultReadResult.notFound⟩

/-- A live registry in which no key exists but, unlike regNoneFound, value
reads would succeed (used to observe that missing keys never read values). -/
def regNoneFoundOtherReads : LiveReg :=
  ⟨fun _ _ => OpenResult.notFound,
   fun _ _ _ => ValueReadResult.ok (RegData.num 7) 4,
   fun _ _ => DefaultReadResult.ok "live"⟩

/-- A live registry in which every key exists and every named value reads
as the REG_SZ string x. -/
def regReadsSz : LiveReg :=
  ⟨fun _ _ => OpenResult.found,
   fun _ _ _ => ValueReadResult.ok (RegData.str "x") 1,
   fun _ _ => DefaultReadResult.notFound⟩

/-- Key list of a document holding one key with one named value. -/
def oneValueKeys (n : String) (v : RegValue) : List (String × RegKey) :=
  [("HKEY_CURRENT_USER\\Test", ⟨[(n, v)], Option.none⟩)]

/-- The 20 byte values 0 to 19. -/
def bytes20 : List Int :=
  [0, 1, 2, 3, 4, 5, 6, 7, 8, 9, 10, 11, 12, 13, 14, 15, 16, 17, 18, 19]

/-- Key data with a default value and one named value, used to
instantiate universally quantified theorems. -/
def sampleKeyData : RegKey :=
  ⟨[("A", mkValue "REG_DWORD" (RegData.num 1))], some (mkValue "REG_SZ" (RegData.str "d"))⟩

/-- Both counter partitions of the summary hold: keys split into active
and missing, values into matching, different and missing. -/
def summaryConsistent (s : Summary) : Prop :=
  s.total_keys = s.active_keys + s.missing_keys ∧
  s.total_values = s.matching_values + s.different_values + s.missing_values

/- ## Theorems for the claims -/

theorem bucketValue_consistent (s : Summary) (v : ValueStatus)
    (h : summaryConsistent s) : summaryConsistent (bucketValue s v) := by
  obtain ⟨a, b, c, d, e, f, g⟩ := s
  obtain ⟨h1, h2⟩ := h
  simp only [summaryConsistent, bucketValue] at *
  split
  · simp_all
    omega
  · split
    · simp_all
      omega
    · simp_all
      omega

theorem foldl_bucketValue_consistent (l : List (String × ValueStatus)) :
    ∀ s : Summary, summaryConsistent s →
      summaryConsistent (l.foldl (fun acc p => bucketValue acc p.2) s) := by
  induction l with
  | nil => intro s h; exact h
  | cons p rest ih =>
    intro s h
    exact ih (bucketValue s p.2) (bucketValue_consistent s p.2 h)

theorem addKeyToSummary_consistent (s : Summary) (ks : KeyStatus)
    (h : summaryConsistent s) : summaryConsistent (addKeyToSummary s ks) := by
  obtain ⟨a, b, c, d, e, f, g⟩ := s
  obtain ⟨h1, h2⟩ := h
  unfold addKeyToSummary
  apply foldl_bucketValue_consistent
  simp only [summaryConsistent] at *
  split <;> constructor <;> simp_all <;> omega

theorem foldl_checkStep_consistent (reg : LiveReg) (ks : List (String × RegKey)) :
    ∀ acc : Summary × List (String × KeyReport), summaryConsistent acc.1 →
      summaryConsistent ((ks.foldl (checkStep reg) acc).1) := by
  induction ks with
  | nil => intro acc h; exact h
  | cons p rest ih =>
    intro acc h
    exact ih (checkStep reg acc p) (addKeyToSummary_consistent acc.1 _ h)

/-- C10: for every document and every live-registry behavior, the summary
satisfies total_keys = active_keys + missing_keys and total_values =
matching_values + different_values + missing_values; and the per-value
bucketing counts every status other than match and different (including
errored reads, should_not_exist and correctly_deleted) in
missing_values. -/
theorem c10_summary_counters_partition :
    (∀ (reg : LiveReg) (parsed : ParsedDoc),
      (checkContentStatus reg parsed).summary.total_keys =
        (checkContentStatus reg parsed).summary.active_keys +
          (checkContentStatus reg parsed).summary.missing_keys ∧
      (checkContentStatus reg parsed).summary.total_values =
        (checkContentStatus reg parsed).summary.matching_values +
          (checkContentStatus reg parsed).summary.different_values +
          (checkContentStatus reg parsed).summary.missing_values) ∧
    (∀ (s : Summary) (vs : ValueStatus), vs.status ≠ "match" → vs.status ≠ "different" →
      bucketValue s vs =
        { s with total_values := s.total_values + 1,
                 missing_values := s.missing_values + 1 }) := by
  constructor
  · intro reg parsed
    exact foldl_checkStep_consistent reg parsed.keys (zeroSummary, []) ⟨rfl, rfl⟩
  · intro s vs h1 h2
    unfold bucketValue
    rw [if_neg h1, if_neg h2]

/-- Witness for C10 at a concrete summary and a should_not_exist value. -/
theorem c10_witness :
    bucketValue zeroSummary ⟨"should_not_exist", deleteValue, Option.none, Option.none⟩ =
      { zeroSummary with
          total_values := zeroSummary.total_values + 1,
          missing_values := zeroSummary.missing_values + 1 } :=
  c10_summary_counters_partition.2 zeroSummary
    ⟨"should_not_exist", deleteValue, Option.none, Option.none⟩
    (by decide) (by decide)

/-- C6: when the live open of a declared key reports not-found, the key
is reported with exists=false and every declared value (the default one
included) is classified missing with the declared value as expected and
no actual value; and the outcome does not depend on the value-read
functions of the live registry, so no live value read is attempted. -/
theorem c6_missing_key_all_values_missing :
    ∀ (reg reg2 : LiveReg) (keyPath : String) (root : RootKey) (sub : String)
      (keyData : RegKey),
      parseKeyPath keyPath = (some root, sub) →
      reg.openKey root sub = OpenResult.notFound →
      checkKeyStatus reg keyPath keyData = ⟨false, missingValueEntries keyData, []⟩ ∧
      (reg2.openKey = reg.openKey →
        checkKeyStatus reg2 keyPath keyData = checkKeyStatus reg keyPath keyData) := by
  intro reg reg2 keyPath root sub keyData h1 h2
  constructor
  · unfold checkKeyStatus
    rw [h1]
    simp [h2]
  · intro h3
    unfold checkKeyStatus
    rw [h1]
    simp [h3, h2]

/-- Witness for C6: a key under HKEY_CURRENT_USER that does not exist, on
two registries sharing the key-open map but with different value reads. -/
theorem c6_witness :
    checkKeyStatus regNoneFound "HKEY_CURRENT_USER\\Missing" sampleKeyData =
      ⟨false, missingValueEntries sampleKeyData, []⟩ ∧
    checkKeyStatus regNoneFoundOtherReads "HKEY_CURRENT_USER\\Missing" sampleKeyData =
      checkKeyStatus regNoneFound "HKEY_CURRENT_USER\\Missing" sampleKeyData := by
  have h := c6_missing_key_all_values_missing regNoneFound regNoneFoundOtherReads
    "HKEY_CURRENT_USER\\Missing" RootKey.hkcu "Missing" sampleKeyData (by decide) rfl
  exact ⟨h.1, h.2 rfl⟩

theorem alistLookup_insert {α : Type} (k k2 : String) (v : α) (l : List (String × α)) :
    alistLookup k2 (alistInsert k v l) =
      if k = k2 then some v else alistLookup k2 l := by
  induction l with
  | nil =>
    by_cases hk : k = k2 <;> simp [alistInsert, alistLookup, hk]
  | cons p rest ih =>
    by_cases hp : p.1 = k <;> by_cases hk : k = k2 <;>
      simp_all [alistInsert, alistLookup]

theorem alistLookup_insert_isSome {α : Type} (k k2 : String) (v : α)
    (l : List (String × α)) (h : (alistLookup k2 l).isSome = true) :
    (alistLookup k2 (alistInsert k v l)).isSome = true := by
  rw [alistLookup_insert]
  by_cases hk : k = k2 <;> simp [hk, h]

theorem checkStep_fold_covers (reg : LiveReg) (ks : List (String × RegKey)) :
    ∀ (acc : Summary × List (String × KeyReport)) (kp : String),
      kp ∈ ks.map Prod.fst ∨ (alistLookup kp acc.2).isSome = true →
      (alistLookup kp ((ks.foldl (checkStep reg) acc)).2).isSome = true := by
  induction ks with
  | nil =>
    intro acc kp h
    rcases h with h | h
    · simp at h
    · exact h
  | cons p rest ih =>
    intro acc kp h
    apply ih (checkStep reg acc p) kp
    rcases h with h | h
    · rcases List.mem_map.mp h with ⟨q, hq, hq2⟩
      rcases List.mem_cons.mp hq with hq | hq
      · right
        rw [show kp = p.1 by rw [← hq2, hq]]
        simp only [checkStep]
        rw [alistLookup_insert]
        simp
      · left
        exact List.mem_map.mpr ⟨q, hq, hq2⟩
    · right
      simp only [checkStep]
      exact alistLookup_insert_isSome _ _ _ _ h

theorem deletedStep_fold_covers (reg : LiveReg) (dks : List String) :
    ∀ (acc : List (String × KeyReport)) (kp : String),
      (alistLookup kp acc).isSome = true →
      (alistLookup kp (dks.foldl (deletedStep reg) acc)).isSome = true := by
  induction dks with
  | nil => intro acc kp h; exact h
  | cons dk rest ih =>
    intro acc kp h
    apply ih
    simp only [deletedStep]
    exact alistLookup_insert_isSome _ _ _ _ h

/-- C9: a document key whose path does not begin with a known root hive
does not make the check throw: it is reported at key level with
exists=false, an empty value map and a recorded invalid-path error, and
every key of the document still receives a report entry, so the overall
check continues with the remaining keys. -/
theorem c9_unknown_root_reported_and_check_continues :
    (∀ (reg : LiveReg) (keyPath : String) (keyData : RegKey),
      (parseKeyPath keyPath).1 = Option.none →
      checkKeyStatus reg keyPath keyData =
        ⟨false, [], ["Ungültiger Key-Pfad: " ++ keyPath]⟩) ∧
    (∀ (reg : LiveReg) (parsed : ParsedDoc) (kp : String) (kd : RegKey),
      (kp, kd) ∈ parsed.keys →
      ∃ rep, alistLookup kp (checkContentStatus reg parsed).keys = some rep) := by
  constructor
  · intro reg keyPath keyData h
    unfold checkKeyStatus
    rcases hpk : parseKeyPath keyPath with ⟨a, b⟩
    rw [hpk] at h
    simp only at h
    rw [h]
  · intro reg parsed kp kd h
    have hs : (alistLookup kp (checkContentStatus reg parsed).keys).isSome = true := by
      show (alistLookup kp
        (parsed.deleted_keys.foldl (deletedStep reg)
          ((parsed.keys.foldl (checkStep reg) (zeroSummary, [])).2))).isSome = true
      apply deletedStep_fold_covers
      apply checkStep_fold_covers
      left
      exact List.mem_map.mpr ⟨(kp, kd), h, rfl⟩
    rcases Option.isSome_iff_exists.mp hs with ⟨rep, hrep⟩
    exact ⟨rep, hrep⟩

/-- Witness for C9: the key FOO-backslash-Bar has no known root hive. -/
theorem c9_witness :
    checkKeyStatus regAllFound "FOO\\Bar" sampleKeyData =
      ⟨false, [], ["Ungültiger Key-Pfad: " ++ "FOO\\Bar"]⟩ ∧
    ∃ rep, alistLookup "FOO\\Bar"
        (checkContentStatus regAllFound
          (parseContent "[FOO\\Bar]\n\"A\"=dword:00000001")).keys = some rep := by
  constructor
  · exact c9_unknown_root_reported_and_check_continues.1 regAllFound "FOO\\Bar"
      sampleKeyData (by decide)
  · exact c9_unknown_root_reported_and_check_continues.2 regAllFound
      (parseContent "[FOO\\Bar]\n\"A\"=dword:00000001") "FOO\\Bar"
      ⟨[("A", mkValue "REG_DWORD" (RegData.num 1))], Option.none⟩ (by decide)

theorem lineStep_nf (v : Option String) (k : List (String × RegKey)) (d e : List String)
    (ck : Option String) (n : Nat) (raw : String) :
    lineStep ⟨v, k, d, e, ck⟩ n raw =
      { lineStep ⟨v, k, d, [], ck⟩ n raw with
        errors := e ++ (lineStep ⟨v, k, d, [], ck⟩ n raw).errors } := by
  by_cases h1 : (pyStrip raw == "" || pyStartsWith (pyStrip raw) ";") = true
  · simp [lineStep, h1]
  · by_cases h2 : pyStartsWith (pyStrip raw) "Windows Registry Editor" = true
    · simp [lineStep, h1, h2]
    · rcases hk : matchKeyLine (pyStrip raw) with _ | k0
      · rcases hdk : matchDeleteKeyLine (pyStrip raw) with _ | dk0
        · rcases ck with _ | c
          · simp [lineStep, h1, h2, hk, hdk]
          · rcases hdf : matchDefaultLine (pyStrip raw) with _ | vt
            · rcases hv : matchValueLine (pyStrip raw) with _ | nv
              · simp [lineStep, h1, h2, hk, hdk, hdf, hv]
              · simp [lineStep, h1, h2, hk, hdk, hdf, hv]
            · simp [lineStep, h1, h2, hk, hdk, hdf]
        · simp [lineStep, h1, h2, hk, hdk]
      · simp [lineStep, h1, h2, hk]

theorem lineStep_num_indep (v : Option String) (k : List (String × RegKey))
    (d e : List String) (ck : Option String) (n m : Nat) (raw : String) :
    (lineStep ⟨v, k, d, e, ck⟩ n raw).version = (lineStep ⟨v, k, d, e, ck⟩ m raw).version ∧
    (lineStep ⟨v, k, d, e, ck⟩ n raw).keys = (lineStep ⟨v, k, d, e, ck⟩ m raw).keys ∧
    (lineStep ⟨v, k, d, e, ck⟩ n raw).deleted_keys =
      (lineStep ⟨v, k, d, e, ck⟩ m raw).deleted_keys ∧
    (lineStep ⟨v, k, d, e, ck⟩ n raw).current_key =
      (lineStep ⟨v, k, d, e, ck⟩ m raw).current_key ∧
    (lineStep ⟨v, k, d, e, ck⟩ n raw).errors.length =
      (lineStep ⟨v, k, d, e, ck⟩ m raw).errors.length := by
  by_cases h1 : (pyStrip raw == "" || pyStartsWith (pyStrip raw) ";") = true
  · simp [lineStep, h1]
  · by_cases h2 : pyStartsWith (pyStrip raw) "Windows Registry Editor" = true
    · simp [lineStep, h1, h2]
    · rcases hk : matchKeyLine (pyStrip raw) with _ | k0
      · rcases hdk : matchDeleteKeyLine (pyStrip raw) with _ | dk0
        · rcases ck with _ | c
          · simp [lineStep, h1, h2, hk, hdk]
          · rcases hdf : matchDefaultLine (pyStrip raw) with _ | vt
            · rcases hv : matchValueLine (pyStrip raw) with _ | nv
              · simp [lineStep, h1, h2, hk, hdk, hdf, hv]
              · simp [lineStep, h1, h2, hk, hdk, hdf, hv]
            · simp [lineStep, h1, h2, hk, hdk, hdf]
        · simp [lineStep, h1, h2, hk, hdk]
      · simp [lineStep, h1, h2, hk]

theorem lineStep_shape (v : Option String) (k : List (String × RegKey)) (d : List String)
    (ck : Option String) (e1 e2 : List String) (n m : Nat) (raw : String) :
    ∃ v2 k2 d2 ck2 t1 t2,
      lineStep ⟨v, k, d, e1, ck⟩ n raw = ⟨v2, k2, d2, e1 ++ t1, ck2⟩ ∧
      lineStep ⟨v, k, d, e2, ck⟩ m raw = ⟨v2, k2, d2, e2 ++ t2, ck2⟩ ∧
      t1.length = t2.length := by
  obtain ⟨ha, hb, hc, hd, he⟩ := lineStep_num_indep v k d [] ck n m raw
  refine ⟨(lineStep ⟨v, k, d, [], ck⟩ n raw).version,
    (lineStep ⟨v, k, d, [], ck⟩ n raw).keys,
    (lineStep ⟨v, k, d, [], ck⟩ n raw).deleted_keys,
    (lineStep ⟨v, k, d, [], ck⟩ n raw).current_key,
    (lineStep ⟨v, k, d, [], ck⟩ n raw).errors,
    (lineStep ⟨v, k, d, [], ck⟩ m raw).errors, ?_, ?_, he⟩
  · rw [lineStep_nf v k d e1 ck n raw]
  · rw [lineStep_nf v k d e2 ck m raw]
    show (⟨(lineStep ⟨v, k, d, [], ck⟩ m raw).version,
      (lineStep ⟨v, k, d, [], ck⟩ m raw).keys,
      (lineStep ⟨v, k, d, [], ck⟩ m raw).deleted_keys,
      e2 ++ (lineStep ⟨v, k, d, [], ck⟩ m raw).errors,
      (lineStep ⟨v, k, d, [], ck⟩ m raw).current_key⟩ : PState) = _
    rw [← ha, ← hb, ← hc, ← hd]

theorem runLines_append (as : List String) :
    ∀ (bs : List String) (st : PState) (n : Nat),
      runLines st n (as ++ bs) = runLines (runLines st n as) (n + as.length) bs := by
  induction as with
  | nil =>
    intro bs st n
    simp [runLines]
  | cons a as ih =>
    intro bs st n
    simp only [List.cons_append, runLines]
    rw [List.append_eq, ih, List.length_cons]
    congr 1
    omega

theorem runLines_shape (ys : List String) :
    ∀ (v : Option String) (k : List (String × RegKey)) (d : List String)
      (ck : Option String) (e1 e2 : List String) (n m : Nat),
      ∃ v2 k2 d2 ck2 t1 t2,
        runLines ⟨v, k, d, e1, ck⟩ n ys = ⟨v2, k2, d2, e1 ++ t1, ck2⟩ ∧
        runLines ⟨v, k, d, e2, ck⟩ m ys = ⟨v2, k2, d2, e2 ++ t2, ck2⟩ ∧
        t1.length = t2.length := by
  induction ys with
  | nil =>
    intro v k d ck e1 e2 n m
    exact ⟨v, k, d, ck, [], [], by simp [runLines], by simp [runLines], rfl⟩
  | cons l ys ih =>
    intro v k d ck e1 e2 n m
    obtain ⟨v2, k2, d2, ck2, s1, s2, hs1, hs2, hslen⟩ :=
      lineStep_shape v k d ck e1 e2 n m l
    obtain ⟨v3, k3, d3, ck3, t1, t2, ht1, ht2, htlen⟩ :=
      ih v2 k2 d2 ck2 (e1 ++ s1) (e2 ++ s2) (n + 1) (m + 1)
    refine ⟨v3, k3, d3, ck3, s1 ++ t1, s2 ++ t2, ?_, ?_, ?_⟩
    · simp only [runLines]
      rw [hs1, ht1, List.append_assoc]
    · simp only [runLines]
      rw [hs2, ht2, List.append_assoc]
    · simp [htlen, hslen]

theorem lineStep_malformed (st : PState) (n : Nat) (raw : String)
    (h : isMalformed st.current_key raw) :
    lineStep st n raw = { st with errors := st.errors ++ [errLine n (pyStrip raw)] } := by
  obtain ⟨v, k, d, e, ck⟩ := st
  obtain ⟨h1, h2, h3, h4, h5⟩ := h
  rcases ck with _ | c
  · simp [lineStep, h1, h2, h3, h4]
  · obtain ⟨h5a, h5b⟩ := h5 rfl
    simp [lineStep, h1, h2, h3, h4, h5a, h5b]

/-- C7: parsing is total and a malformed line inside the file changes
nothing but the error list: the parse of any line sequence with one
malformed line inserted has the same keys, deleted keys and version as
the parse without it, exactly one more error entry, and that entry is the
unknown-format message carrying the line number of the malformed line. -/
theorem c7_malformed_line_only_adds_one_error :
    ∀ (xs ys : List String) (bad : String),
      isMalformed (runLines initPState 1 xs).current_key bad →
      (parseLines (xs ++ bad :: ys)).keys = (parseLines (xs ++ ys)).keys ∧
      (parseLines (xs ++ bad :: ys)).deleted_keys = (parseLines (xs ++ ys)).deleted_keys ∧
      (parseLines (xs ++ bad :: ys)).version = (parseLines (xs ++ ys)).version ∧
      (parseLines (xs ++ bad :: ys)).errors.length =
        (parseLines (xs ++ ys)).errors.length + 1 ∧
      ((parseLines (xs ++ bad :: ys)).errors)[(runLines initPState 1 xs).errors.length]? =
        some (errLine (xs.length + 1) (pyStrip bad)) := by
  intro xs ys bad hmal
  rcases hS : runLines initPState 1 xs with ⟨sv, sk, sd, se, sck⟩
  rw [hS] at hmal
  have hD1 : runLines initPState 1 (xs ++ bad :: ys) =
      runLines ⟨sv, sk, sd, se ++ [errLine (1 + xs.length) (pyStrip bad)], sck⟩
        (1 + xs.length + 1) ys := by
    rw [runLines_append, hS]
    simp only [runLines]
    rw [lineStep_malformed ⟨sv, sk, sd, se, sck⟩ (1 + xs.length) bad hmal]
  have hD2 : runLines initPState 1 (xs ++ ys) =
      runLines ⟨sv, sk, sd, se, sck⟩ (1 + xs.length) ys := by
    rw [runLines_append, hS]
  obtain ⟨v2, k2, d2, ck2, t1, t2, ht1, ht2, htlen⟩ :=
    runLines_shape ys sv sk sd sck
      (se ++ [errLine (1 + xs.length) (pyStrip bad)]) se (1 + xs.length + 1) (1 + xs.length)
  have e1 : parseLines (xs ++ bad :: ys) =
      ⟨v2, k2, d2, (se ++ [errLine (1 + xs.length) (pyStrip bad)]) ++ t1⟩ := by
    unfold parseLines
    rw [hD1, ht1]
  have e2 : parseLines (xs ++ ys) = ⟨v2, k2, d2, se ++ t2⟩ := by
    unfold parseLines
    rw [hD2, ht2]
  rw [e1, e2]
  have hcomm : 1 + xs.length = xs.length + 1 := by omega
  refine ⟨rfl, rfl, rfl, ?_, ?_⟩
  · simp [htlen]
    omega
  · have hget : ((se ++ ([errLine (1 + xs.length) (pyStrip bad)] ++ t1)))[se.length]? =
        ([errLine (1 + xs.length) (pyStrip bad)] ++ t1)[0]? := by
      rw [List.getElem?_append_right (by omega)]
      simp
    simp only [List.append_assoc]
    rw [hget]
    simp [hcomm]

/-- Witness for C7: a garbage line between a key line and a value line. -/
theorem c7_witness :
    (parseLines (["[HKEY_CURRENT_USER\\Test]"] ++ "garbage line" ::
        ["\"A\"=dword:00000001"])).keys =
      (parseLines (["[HKEY_CURRENT_USER\\Test]"] ++ ["\"A\"=dword:00000001"])).keys ∧
    (parseLines (["[HKEY_CURRENT_USER\\Test]"] ++ "garbage line" ::
        ["\"A\"=dword:00000001"])).deleted_keys =
      (parseLines (["[HKEY_CURRENT_USER\\Test]"] ++ ["\"A\"=dword:00000001"])).deleted_keys ∧
    (parseLines (["[HKEY_CURRENT_USER\\Test]"] ++ "garbage line" ::
        ["\"A\"=dword:00000001"])).version =
      (parseLines (["[HKEY_CURRENT_USER\\Test]"] ++ ["\"A\"=dword:00000001"])).version ∧
    (parseLines (["[HKEY_CURRENT_USER\\Test]"] ++ "garbage line" ::
        ["\"A\"=dword:00000001"])).errors.length =
      (parseLines (["[HKEY_CURRENT_USER\\Test]"] ++ ["\"A\"=dword:00000001"])).errors.length
        + 1 ∧
    ((parseLines (["[HKEY_CURRENT_USER\\Test]"] ++ "garbage line" ::
        ["\"A\"=dword:00000001"])).errors)[(runLines initPState 1
          ["[HKEY_CURRENT_USER\\Test]"]).errors.length]? =
      some (errLine (["[HKEY_CURRENT_USER\\Test]"].length + 1) (pyStrip "garbage line")) :=
  c7_malformed_line_only_adds_one_error ["[HKEY_CURRENT_USER\\Test]"]
    ["\"A\"=dword:00000001"] "garbage line" (by decide)

/-- C1: the claim says a [-KEY_PATH] line is recorded in the deleted-key
set, opens no value context, and yields a report entry with
expected_deleted=true and status should_not_exist when the key exists
live.  The code does the opposite: key_pattern is tried first and also
matches [-PATH], so the line is stored as an ordinary key named -PATH
which does open a value context (the following value line attaches to
it), deleted_keys stays empty, and the checker reports that pseudo-key as
an invalid path with exists=false and no expected_deleted marker even
though every key of the live registry exists. -/
theorem c1_delete_marker_is_treated_as_ordinary_key :
    parseContent "[-HKEY_CURRENT_USER\\Software\\Obsolete]\n\"X\"=dword:00000001" =
      ⟨Option.none,
       [("-HKEY_CURRENT_USER\\Software\\Obsolete",
         ⟨[("X", mkValue "REG_DWORD" (RegData.num 1))], Option.none⟩)],
       [], []⟩ ∧
    alistLookup "-HKEY_CURRENT_USER\\Software\\Obsolete"
        (checkContentStatus regAllFound
          (parseContent "[-HKEY_CURRENT_USER\\Software\\Obsolete]\n\"X\"=dword:00000001")).keys =
      some ⟨false, false, Option.none, [],
        ["Ungültiger Key-Pfad: -HKEY_CURRENT_USER\\Software\\Obsolete"]⟩ := by
  decide

/-- C2 counterexample: a REG_MULTI_SZ value with payload a,b does not
survive the round trip as a string sequence; the reparsed payload is the
raw UTF-16LE byte list of the hex(7) line. -/
theorem c2_multisz_roundtrip_fails :
    docValue
        (parseContent (generateContent
          (oneValueKeys "M" (mkValue "REG_MULTI_SZ" (RegData.strs ["a", "b"]))) []))
        "HKEY_CURRENT_USER\\Test" "M" ≠
      some (mkValue "REG_MULTI_SZ" (RegData.strs ["a", "b"])) ∧
    docValue
        (parseContent (generateContent
          (oneValueKeys "M" (mkValue "REG_MULTI_SZ" (RegData.strs ["a", "b"]))) []))
        "HKEY_CURRENT_USER\\Test" "M" =
      some (mkValue "REG_MULTI_SZ" (RegData.bytes [97, 0, 0, 0, 98, 0, 0, 0, 0, 0])) := by
  decide

/-- C2 amended: for a single-key single-value document, parse after
serialize restores tag and payload for REG_SZ, REG_DWORD, REG_QWORD and
short REG_BINARY; for REG_MULTI_SZ and REG_EXPAND_SZ the tag survives but
the payload comes back as the UTF-16LE byte list of the hex line; a
DELETE-tagged value serializes as the string None and reparses as REG_SZ. -/
theorem c2_roundtrip_by_tag :
    docValue (parseContent (generateContent
        (oneValueKeys "S" (mkValue "REG_SZ" (RegData.str "a"))) []))
        "HKEY_CURRENT_USER\\Test" "S" = some (mkValue "REG_SZ" (RegData.str "a")) ∧
    docValue (parseContent (generateContent
        (oneValueKeys "D" (mkValue "REG_DWORD" (RegData.num 1))) []))
        "HKEY_CURRENT_USER\\Test" "D" = some (mkValue "REG_DWORD" (RegData.num 1)) ∧
    docValue (parseContent (generateContent
        (oneValueKeys "Q" (mkValue "REG_QWORD" (RegData.num 1))) []))
        "HKEY_CURRENT_USER\\Test" "Q" = some (mkValue "REG_QWORD" (RegData.num 1)) ∧
    docValue (parseContent (generateContent
        (oneValueKeys "B" (mkValue "REG_BINARY" (RegData.bytes [1, 2, 3]))) []))
        "HKEY_CURRENT_USER\\Test" "B" = some (mkValue "REG_BINARY" (RegData.bytes [1, 2, 3])) ∧
    docValue (parseContent (generateContent
        (oneValueKeys "M" (mkValue "REG_MULTI_SZ" (RegData.strs ["a", "b"]))) []))
        "HKEY_CURRENT_USER\\Test" "M" =
      some (mkValue "REG_MULTI_SZ" (RegData.bytes [97, 0, 0, 0, 98, 0, 0, 0, 0, 0])) ∧
    docValue (parseContent (generateContent
        (oneValueKeys "E" (mkValue "REG_EXPAND_SZ" (RegData.str "a"))) []))
        "HKEY_CURRENT_USER\\Test" "E" =
      some (mkValue "REG_EXPAND_SZ" (RegData.bytes [97, 0, 0, 0])) ∧
    docValue (parseContent (generateContent (oneValueKeys "X" deleteValue) []))
        "HKEY_CURRENT_USER\\Test" "X" = some (mkValue "REG_SZ" (RegData.str "None")) := by
  decide

/-- C3: the claim says multi-line hex continuation is supported and a
20-byte REG_BINARY value round-trips.  The code only has a pass
placeholder for continuation lines: the serializer does emit the value
across two lines with a trailing backslash, but reparsing keeps only the
first 16 bytes and records the continuation line as an unknown-format
parse error. -/
theorem c3_hex_continuation_is_not_reassembled :
    docValue (parseContent (generateContent
        (oneValueKeys "B" (mkValue "REG_BINARY" (RegData.bytes bytes20))) []))
        "HKEY_CURRENT_USER\\Test" "B" =
      some (mkValue "REG_BINARY"
        (RegData.bytes [0, 1, 2, 3, 4, 5, 6, 7, 8, 9, 10, 11, 12, 13, 14, 15])) ∧
    (parseContent (generateContent
        (oneValueKeys "B" (mkValue "REG_BINARY" (RegData.bytes bytes20))) [])).errors =
      ["Zeile 5: Unbekanntes Format: 10,11,12,13"] := by
  decide

/-- C4: the claim says a declared value parsed from name=- (tag DELETE)
is classified correctly_deleted when the live read reports not-found and
should_not_exist when the read succeeds.  The checker keys both branches
on an action field equal to delete, which the parser never sets (it sets
type DELETE), so the code classifies the not-found case as missing and
the successful-read case as different. -/
theorem c4_delete_tag_is_not_recognized_by_checker :
    docValue (parseContent "[HKEY_CURRENT_USER\\K]\n\"V\"=-") "HKEY_CURRENT_USER\\K" "V" =
      some deleteValue ∧
    (checkValueStatus regAllFound RootKey.hkcu "K" (some "V") deleteValue).status =
      "missing" ∧
    (checkValueStatus regReadsSz RootKey.hkcu "K" (some "V") deleteValue).status =
      "different" := by
  decide

/-- C5: the overall status is a pure function of the summary counters:
unknown when total_values is zero, all_active when every value matches,
all_inactive when none does, partial otherwise; and the pipeline derives
the overall status from exactly the summary it reports. -/
theorem c5_overall_status_pure_function_of_summary :
    (∀ s : Summary, calculateOverallStatus s =
      if s.total_values = 0 then "unknown"
      else if s.matching_values = s.total_values then "all_active"
      else if s.matching_values = 0 then "all_inactive"
      else "partial") ∧
    (∀ (reg : LiveReg) (parsed : ParsedDoc),
      (checkContentStatus reg parsed).overall_status =
        calculateOverallStatus (checkContentStatus reg parsed).summary) :=
  ⟨fun _ => rfl, fun _ _ => rfl⟩

/-- C8 amended: a dword (or qword) value line whose hex portion is not
valid hexadecimal parses to a value that keeps the REG_DWORD (resp.
REG_QWORD) tag, carries an attached error message and defaults its
numeric value to 0; the document as a whole is not rejected (the error
sits on the value, the document error list stays empty). -/
theorem c8_invalid_hex_keeps_numeric_tag :
    (∀ s : String, pyStrip ("dword:" ++ s) = "dword:" ++ s → pyIntHex s = Option.none →
      parseRegValue ("dword:" ++ s) =
        mkValueErr "REG_DWORD" (some (RegData.num 0))
          ("Ungültiger DWORD-Wert: " ++ ("dword:" ++ s))) ∧
    (∀ s : String, pyStrip ("qword:" ++ s) = "qword:" ++ s → pyIntHex s = Option.none →
      parseRegValue ("qword:" ++ s) =
        mkValueErr "REG_QWORD" (some (RegData.num 0))
          ("Ungültiger QWORD-Wert: " ++ ("qword:" ++ s))) ∧
    parseLines ["[HKEY_CURRENT_USER\\K]", "\"V\"=dword:zz"] =
      ⟨Option.none,
       [("HKEY_CURRENT_USER\\K",
         ⟨[("V", mkValueErr "REG_DWORD" (some (RegData.num 0))
             "Ungültiger DWORD-Wert: dword:zz")], Option.none⟩)],
       [], []⟩ := by
  refine ⟨?_, ?_, by decide⟩
  · intro s h1 h2
    simp only [parseRegValue, h1]
    have h2b : pyIntHex (sliceDrop ("dword:" ++ s) 6) = Option.none := h2
    rw [h2b]
    rfl
  · intro s h1 h2
    simp only [parseRegValue, h1]
    have h2b : pyIntHex (sliceDrop ("qword:" ++ s) 6) = Option.none := h2
    rw [h2b]
    rfl

/-- Witness for C8 at the concrete invalid hex digits zz. -/
theorem c8_witness :
    parseRegValue ("dword:" ++ "zz") =
      mkValueErr "REG_DWORD" (some (RegData.num 0))
        ("Ungültiger DWORD-Wert: " ++ ("dword:" ++ "zz")) ∧
    parseRegValue ("qword:" ++ "zz") =
      mkValueErr "REG_QWORD" (some (RegData.num 0))
        ("Ungültiger QWORD-Wert: " ++ ("qword:" ++ "zz")) :=
  ⟨c8_invalid_hex_keeps_numeric_tag.1 "zz" (by decide) (by decide),
   c8_invalid_hex_keeps_numeric_tag.2.1 "zz" (by decide) (by decide)⟩

/-- C8 counterexample: a dword value with invalid hex digits is not
tagged UNKNOWN; it keeps the REG_DWORD tag (with the error attached and
the numeric value defaulted to 0). -/
theorem c8_invalid_dword_not_tagged_unknown :
    (parseRegValue "dword:zz").type = some "REG_DWORD" ∧
    ¬ (parseRegValue "dword:zz").type = some "UNKNOWN" ∧
    parseRegValue "dword:zz" =
      mkValueErr "REG_DWORD" (some (RegData.num 0)) "Ungültiger DWORD-Wert: dword:zz" := by
  decide

end RegistryManager
